import Mathlib

/-!
Verification of the WotanEye billing server (`src/stripe_server.js`).

The file embeds the three HTTP handlers of the server:

* the checkout endpoint `POST /api/billing/checkout` (lines 52-83), which
  resolves a price from the requested plan and creates a vendor checkout
  session;
* the webhook endpoint `POST /api/billing/webhooks` (lines 119-161), which
  verifies the vendor signature and then updates the in-memory
  `subscriptions` map via a switch on the event type;
* the decoded-event projector: the bodies of the three switch cases
  (lines 132-154), viewed over already-decoded billing events as in the
  design document.

JavaScript values that may be `undefined` are embedded as `Option String`
(`none` is `undefined`); JavaScript truthiness and the stringification of
`undefined` object keys are made explicit.
-/

/-- JavaScript truthiness of an optional string: `undefined` (here `none`)
and the empty string are falsy, every other string is truthy. -/
def truthy : Option String → Bool
  | none => false
  | some s => s ≠ ""

/-- JavaScript object-key stringification: using `undefined` as a property
key stores under the string key "undefined". -/
def keyOf : Option String → String
  | none => "undefined"
  | some s => s

/-- A record stored in the raw `subscriptions` map: both fields are whatever
JavaScript value was written, possibly `undefined`. -/
structure StoredRecord where
  plan : Option String
  status : Option String
deriving DecidableEq, Repr

/-- The raw in-memory `subscriptions` object (line 119): a map from string
keys to records, `none` meaning the key is absent. -/
def RawStore := String → Option StoredRecord

/-- `subscriptions[k] = v` (lines 136, 144, 151): overwrite the record at
key `k`, leaving every other key unchanged. -/
def RawStore.set (s : RawStore) (k : String) (v : StoredRecord) : RawStore :=
  fun q => if q = k then some v else s q

/-- The initial, empty `subscriptions` object. -/
def emptyRawStore : RawStore := fun _ => none

/-- The `data.object` of a webhook event, with the properties the handler
reads: `subscription`, `metadata.orgId`, `metadata.plan`, top-level `orgId`
and `plan`, and `status`. Absent properties read as `undefined` (`none`). -/
structure EventObject where
  subscription : Option String
  metadata_orgId : Option String
  metadata_plan : Option String
  orgId : Option String
  plan : Option String
  status : Option String
deriving DecidableEq, Repr

/-- A decoded webhook event: its `type` string and `data.object`. -/
structure StripeEvent where
  type : String
  object : EventObject
deriving DecidableEq, Repr

/-- The switch on `event.type` (lines 131-158).  For
`checkout.session.completed` the handler destructures `orgId` and `plan`
from `session.metadata` when `session.subscription` is truthy and from the
session object itself otherwise (line 134), then writes
`{plan, status: 'trialing'}` under `orgId`.  The two subscription events
read `metadata.orgId`; unknown types only log. -/
def handleEvent (subscriptions : RawStore) (event : StripeEvent) : RawStore :=
  if event.type = "checkout.session.completed" then
    let session := event.object
    let orgId := if truthy session.subscription then session.metadata_orgId else session.orgId
    let plan := if truthy session.subscription then session.metadata_plan else session.plan
    subscriptions.set (keyOf orgId) { plan := plan, status := some "trialing" }
  else if event.type = "customer.subscription.updated" then
    let s := event.object
    subscriptions.set (keyOf s.metadata_orgId) { plan := s.metadata_plan, status := s.status }
  else if event.type = "customer.subscription.deleted" then
    let s := event.object
    subscriptions.set (keyOf s.metadata_orgId) { plan := some "free", status := some "canceled" }
  else
    subscriptions

/-- The HTTP response of the webhook route: `{received: true}` with
status 200, or a 400 `Webhook Error` when signature verification throws. -/
inductive WebhookResponse where
  | received
  | webhookError
deriving DecidableEq, Repr

/-- One call to the webhook route: whether `constructEvent` accepts the
signature, and the event it decodes when it does. -/
structure WebhookCall where
  sigValid : Bool
  event : StripeEvent

/-- `POST /api/billing/webhooks` (lines 120-161): on signature failure the
handler returns a 400 error before touching any state; otherwise it runs
the switch and acknowledges with `{received: true}`. -/
def webhookRoute (subscriptions : RawStore) (call : WebhookCall) : RawStore × WebhookResponse :=
  if call.sigValid then
    (handleEvent subscriptions call.event, WebhookResponse.received)
  else
    (subscriptions, WebhookResponse.webhookError)

/-- Outcome of `POST /api/billing/checkout`: the 400 `Missing plan or orgId`
rejection, or the vendor calls (customer creation and session creation with
the resolved price). Vendor-side failures (the 500 path) are outside the
control flow decided by the request. -/
inductive CheckoutResult where
  | missingParams
  | sessionCreated (priceId : String)
deriving DecidableEq, Repr

/-- Whether the outcome reaches the vendor (lines 63-77): every request
that passes the presence check does. -/
def performsVendorCall : CheckoutResult → Bool
  | CheckoutResult.missingParams => false
  | CheckoutResult.sessionCreated _ => true

/-- `POST /api/billing/checkout` (lines 52-83): reject when `plan` or
`orgId` is falsy (line 54); otherwise resolve the price with the ternary of
lines 58-60 — `business` maps to the business price and EVERY other plan
falls through to the pro price — and create the session. -/
def checkoutRoute (proPrice businessPrice : String)
    (plan orgId : Option String) : CheckoutResult :=
  if !truthy plan || !truthy orgId then
    CheckoutResult.missingParams
  else
    CheckoutResult.sessionCreated (if plan = some "business" then businessPrice else proPrice)

/-- A decoded billing event, the three variants the switch handles plus the
default case for any other type string. -/
inductive BillingEvent where
  | checkoutCompleted (orgId plan : String)
  | subscriptionUpdated (orgId plan status : String)
  | subscriptionDeleted (orgId : String)
  | unknown (type : String)
deriving DecidableEq, Repr

/-- A subscription record at the decoded level. -/
structure SubscriptionRecord where
  plan : String
  status : String
deriving DecidableEq, Repr

/-- The store at the decoded level: organization identifier to record. -/
def Store := String → Option SubscriptionRecord

/-- Overwrite the record for one organization, leaving the rest unchanged. -/
def Store.set (s : Store) (k : String) (v : SubscriptionRecord) : Store :=
  fun q => if q = k then some v else s q

/-- The empty store: no organization has been seen. -/
def emptyStore : Store := fun _ => none

/-- The projector over decoded events: the bodies of the switch cases
(lines 136, 144, 151), each an unconditional overwrite, and the default
case (lines 156-157), which mutates nothing. -/
def applyEvent (subscriptions : Store) : BillingEvent → Store
  | BillingEvent.checkoutCompleted orgId plan =>
      subscriptions.set orgId { plan := plan, status := "trialing" }
  | BillingEvent.subscriptionUpdated orgId plan status =>
      subscriptions.set orgId { plan := plan, status := status }
  | BillingEvent.subscriptionDeleted orgId =>
      subscriptions.set orgId { plan := "free", status := "canceled" }
  | BillingEvent.unknown _ => subscriptions

/-- Process a finite sequence of events in delivery order. -/
def applyAll (s : Store) (events : List BillingEvent) : Store :=
  events.foldl applyEvent s

/-- The organization an event mentions; the default-case variant mentions
none. -/
def eventOrg : BillingEvent → Option String
  | BillingEvent.checkoutCompleted orgId _ => some orgId
  | BillingEvent.subscriptionUpdated orgId _ _ => some orgId
  | BillingEvent.subscriptionDeleted orgId => some orgId
  | BillingEvent.unknown _ => none

/-- The record a single event writes for the organization it mentions:
exactly the right-hand sides of lines 136, 144 and 151. The value on the
`unknown` variant is irrelevant (such events mention no organization). -/
def project : BillingEvent → SubscriptionRecord
  | BillingEvent.checkoutCompleted _ plan => { plan := plan, status := "trialing" }
  | BillingEvent.subscriptionUpdated _ plan status => { plan := plan, status := status }
  | BillingEvent.subscriptionDeleted _ => { plan := "free", status := "canceled" }
  | BillingEvent.unknown _ => { plan := "", status := "" }

/-- The events of a sequence that mention a given organization, in delivery
order. -/
def eventsFor (org : String) (events : List BillingEvent) : List BillingEvent :=
  events.filter (fun e => eventOrg e = some org)

theorem Store.set_self (s : Store) (k : String) (v : SubscriptionRecord) :
    s.set k v k = some v := by
  simp [Store.set]

theorem Store.set_other (s : Store) (k q : String) (v : SubscriptionRecord)
    (h : q ≠ k) : s.set k v q = s q := by
  simp [Store.set, h]

theorem applyEvent_org (s : Store) (e : BillingEvent) (org : String)
    (h : eventOrg e = some org) : applyEvent s e org = some (project e) := by
  cases e <;> simp_all [eventOrg, applyEvent, project, Store.set]

theorem applyEvent_not_org (s : Store) (e : BillingEvent) (org : String)
    (h : eventOrg e ≠ some org) : applyEvent s e org = s org := by
  cases e <;> simp_all [eventOrg, applyEvent, Store.set]
  all_goals
    intro hq
    exact absurd hq.symm h

theorem applyAll_append (s : Store) (l₁ l₂ : List BillingEvent) :
    applyAll s (l₁ ++ l₂) = applyAll (applyAll s l₁) l₂ := by
  simp [applyAll, List.foldl_append]

theorem applyAll_not_mentioned (s : Store) (events : List BillingEvent)
    (org : String) (h : ∀ e ∈ events, eventOrg e ≠ some org) :
    applyAll s events org = s org := by
  induction events generalizing s with
  | nil => rfl
  | cons a l ih =>
      have ha : eventOrg a ≠ some org := h a (List.mem_cons_self a l)
      have hl : ∀ e ∈ l, eventOrg e ≠ some org := fun e he => h e (List.mem_cons_of_mem a he)
      calc applyAll s (a :: l) org = applyAll (applyEvent s a) l org := rfl
        _ = applyEvent s a org := ih (applyEvent s a) hl
        _ = s org := applyEvent_not_org s a org ha

theorem eventsFor_append (org : String) (l₁ l₂ : List BillingEvent) :
    eventsFor org (l₁ ++ l₂) = eventsFor org l₁ ++ eventsFor org l₂ := by
  simp [eventsFor, List.filter_append]

theorem applyAll_last_mentioning (events : List BillingEvent) (s : Store)
    (org : String) :
    ∀ e : BillingEvent, (eventsFor org events).getLast? = some e →
      applyAll s events org = some (project e) := by
  induction events using List.reverseRecOn with
  | nil =>
      intro e h
      simp [eventsFor] at h
  | append_singleton l a ih =>
      intro e h
      rw [eventsFor_append] at h
      rw [applyAll_append]
      by_cases ha : eventOrg a = some org
      · have hfa : eventsFor org [a] = [a] := by simp [eventsFor, ha]
        rw [hfa, List.getLast?_concat] at h
        cases h
        calc applyAll (applyAll s l) [a] org
            = applyEvent (applyAll s l) a org := rfl
          _ = some (project a) := applyEvent_org _ a org ha
      · have hfa : eventsFor org [a] = [] := by simp [eventsFor, ha]
        rw [hfa, List.append_nil] at h
        calc applyAll (applyAll s l) [a] org
            = applyEvent (applyAll s l) a org := rfl
          _ = applyAll s l org := applyEvent_not_org _ a org ha
          _ = some (project e) := ih e h

/-- C2: for every organization identifier and every finite sequence of
billing events processed by the webhook handler, the stored record for that
organization after the sequence is the projection of the last event in
delivery order that mentions that organization. -/
theorem webhook_last_event_wins (events : List BillingEvent) (s : Store)
    (org : String) (e : BillingEvent)
    (h : (eventsFor org events).getLast? = some e) :
    applyAll s events org = some (project e) :=
  applyAll_last_mentioning events s org e h

/-- Witness for C2 on a concrete four-event sequence: the later update for
"acme" wins over its earlier checkout, across unrelated events. -/
theorem webhook_last_event_wins_witness :
    (eventsFor "acme"
        [BillingEvent.checkoutCompleted "acme" "pro",
         BillingEvent.unknown "invoice.paid",
         BillingEvent.subscriptionUpdated "beta" "business" "active",
         BillingEvent.subscriptionUpdated "acme" "pro" "active"]).getLast? =
      some (BillingEvent.subscriptionUpdated "acme" "pro" "active") ∧
    applyAll emptyStore
        [BillingEvent.checkoutCompleted "acme" "pro",
         BillingEvent.unknown "invoice.paid",
         BillingEvent.subscriptionUpdated "beta" "business" "active",
         BillingEvent.subscriptionUpdated "acme" "pro" "active"] "acme" =
      some { plan := "pro", status := "active" } :=
  ⟨by decide,
   webhook_last_event_wins _ emptyStore "acme"
     (BillingEvent.subscriptionUpdated "acme" "pro" "active") (by decide)⟩

/-- C3: applying the identical event twice leaves the store exactly as
applying it once, for every variant and every starting store. -/
theorem applyEvent_idempotent (s : Store) (e : BillingEvent) :
    applyEvent (applyEvent s e) e = applyEvent s e := by
  cases e with
  | unknown t => rfl
  | checkoutCompleted o p =>
      funext k
      simp only [applyEvent, Store.set]
      by_cases h : k = o <;> simp [h]
  | subscriptionUpdated o p st =>
      funext k
      simp only [applyEvent, Store.set]
      by_cases h : k = o <;> simp [h]
  | subscriptionDeleted o =>
      funext k
      simp only [applyEvent, Store.set]
      by_cases h : k = o <;> simp [h]

/-- C4: a CheckoutCompleted event writes `{plan, status := trialing}` for
its organization over any prior store; in particular Scenario A. -/
theorem checkout_completed_overwrites :
    (∀ (s : Store) (orgId plan : String),
        applyEvent s (BillingEvent.checkoutCompleted orgId plan) orgId =
          some { plan := plan, status := "trialing" }) ∧
    applyAll emptyStore [BillingEvent.checkoutCompleted "acme" "pro"] "acme" =
      some { plan := "pro", status := "trialing" } := by
  constructor
  · intro s orgId plan
    simp [applyEvent, Store.set]
  · decide

/-- C5: a SubscriptionUpdated event writes `{plan, status}` for its
organization over any prior store; in particular Scenario B. -/
theorem subscription_updated_overwrites :
    (∀ (s : Store) (orgId plan status : String),
        applyEvent s (BillingEvent.subscriptionUpdated orgId plan status) orgId =
          some { plan := plan, status := status }) ∧
    applyAll emptyStore
        [BillingEvent.checkoutCompleted "acme" "pro",
         BillingEvent.subscriptionUpdated "acme" "pro" "active"] "acme" =
      some { plan := "pro", status := "active" } := by
  constructor
  · intro s orgId plan status
    simp [applyEvent, Store.set]
  · decide

/-- C6: a SubscriptionDeleted event writes `{plan := free, status :=
canceled}` for its organization over any prior store, and the key stays
present (the record is never physically removed). -/
theorem subscription_deleted_downgrades (s : Store) (orgId : String) :
    applyEvent s (BillingEvent.subscriptionDeleted orgId) orgId =
      some { plan := "free", status := "canceled" } ∧
    (applyEvent s (BillingEvent.subscriptionDeleted orgId) orgId).isSome = true := by
  constructor
  · simp [applyEvent, Store.set]
  · simp [applyEvent, Store.set]

/-- C7: a webhook event whose type is none of the three handled types
mutates no state (the map returned is the very map passed in) and the call
still acknowledges receipt. -/
theorem unknown_event_type_noop (subs : RawStore) (ev : StripeEvent)
    (h1 : ev.type ≠ "checkout.session.completed")
    (h2 : ev.type ≠ "customer.subscription.updated")
    (h3 : ev.type ≠ "customer.subscription.deleted") :
    webhookRoute subs { sigValid := true, event := ev } =
      (subs, WebhookResponse.received) := by
  simp [webhookRoute, handleEvent, h1, h2, h3]

/-- Witness for C7 at a concrete unhandled event type. -/
theorem unknown_event_type_noop_witness :
    webhookRoute emptyRawStore
        { sigValid := true,
          event := { type := "invoice.paid",
                     object := { subscription := none, metadata_orgId := none,
                                 metadata_plan := none, orgId := none,
                                 plan := none, status := none } } } =
      (emptyRawStore, WebhookResponse.received) :=
  unknown_event_type_noop emptyRawStore
    { type := "invoice.paid",
      object := { subscription := none, metadata_orgId := none,
                  metadata_plan := none, orgId := none,
                  plan := none, status := none } }
    (by decide) (by decide) (by decide)

/-- C8: a webhook call failing signature verification is rejected with a
400 error, the map is unchanged, receipt is not acknowledged, and
acknowledgement is returned only when verification succeeds. -/
theorem sig_verification_failure_rejects (subs : RawStore) (call : WebhookCall)
    (h : call.sigValid = false) :
    webhookRoute subs call = (subs, WebhookResponse.webhookError) ∧
    (webhookRoute subs call).2 ≠ WebhookResponse.received ∧
    ∀ c : WebhookCall, (webhookRoute subs c).2 = WebhookResponse.received →
      c.sigValid = true := by
  refine ⟨?_, ?_, ?_⟩
  · simp [webhookRoute, h]
  · simp [webhookRoute, h]
  · intro c hc
    cases hcv : c.sigValid with
    | true => rfl
    | false => simp [webhookRoute, hcv] at hc

/-- Witness for C8 at a concrete rejected call. -/
theorem sig_verification_failure_rejects_witness :
    webhookRoute emptyRawStore
        { sigValid := false,
          event := { type := "checkout.session.completed",
                     object := { subscription := none, metadata_orgId := some "acme",
                                 metadata_plan := some "pro", orgId := none,
                                 plan := none, status := none } } } =
      (emptyRawStore, WebhookResponse.webhookError) :=
  (sig_verification_failure_rejects emptyRawStore
    { sigValid := false,
      event := { type := "checkout.session.completed",
                 object := { subscription := none, metadata_orgId := some "acme",
                             metadata_plan := some "pro", orgId := none,
                             plan := none, status := none } } }
    (by decide)).1

/-- C9: an organization mentioned by no processed event has no record; after
appending its first CheckoutCompleted, the lookup returns a populated
record. -/
theorem unseen_org_then_first_checkout (events : List BillingEvent)
    (org plan : String) (h : ∀ e ∈ events, eventOrg e ≠ some org) :
    applyAll emptyStore events org = none ∧
    applyAll emptyStore (events ++ [BillingEvent.checkoutCompleted org plan]) org =
      some { plan := plan, status := "trialing" } := by
  constructor
  · rw [applyAll_not_mentioned emptyStore events org h]
    rfl
  · rw [applyAll_append]
    show applyEvent (applyAll emptyStore events)
        (BillingEvent.checkoutCompleted org plan) org = _
    simp [applyEvent, Store.set]

/-- Witness for C9: "acme" is unseen by a sequence about other
organizations, then populated by its first checkout. -/
theorem unseen_org_then_first_checkout_witness :
    applyAll emptyStore
        [BillingEvent.checkoutCompleted "beta" "pro",
         BillingEvent.unknown "invoice.paid"] "acme" = none ∧
    applyAll emptyStore
        ([BillingEvent.checkoutCompleted "beta" "pro",
          BillingEvent.unknown "invoice.paid"] ++
         [BillingEvent.checkoutCompleted "acme" "business"]) "acme" =
      some { plan := "business", status := "trialing" } :=
  unseen_org_then_first_checkout
    [BillingEvent.checkoutCompleted "beta" "pro",
     BillingEvent.unknown "invoice.paid"]
    "acme" "business" (by decide)

/-- A checkout.session.completed payload that carries `orgId` and `plan`
only inside `metadata`, with a falsy `subscription` field. -/
def metadataOnlySession : EventObject :=
  { subscription := none, metadata_orgId := some "acme",
    metadata_plan := some "pro", orgId := none, plan := none, status := none }

/-- C10: when `session.subscription` is falsy the handler destructures
`orgId` and `plan` from the session's top level, not from
`session.metadata`; on a payload carrying them only in metadata the write
lands under the stringified key "undefined" with an undefined plan, and
nothing is stored for the event's organization "acme". -/
theorem checkout_completed_field_confusion (subs : RawStore) (obj : EventObject)
    (h : truthy obj.subscription = false) :
    handleEvent subs { type := "checkout.session.completed", object := obj } =
      subs.set (keyOf obj.orgId) { plan := obj.plan, status := some "trialing" } ∧
    handleEvent emptyRawStore
        { type := "checkout.session.completed", object := metadataOnlySession }
        "undefined" =
      some { plan := none, status := some "trialing" } ∧
    handleEvent emptyRawStore
        { type := "checkout.session.completed", object := metadataOnlySession }
        "acme" = none := by
  refine ⟨?_, ?_, ?_⟩
  · simp [handleEvent, h]
  · decide
  · decide

/-- Witness for C10 at the concrete metadata-only payload. -/
theorem checkout_completed_field_confusion_witness :
    handleEvent emptyRawStore
        { type := "checkout.session.completed", object := metadataOnlySession } =
      emptyRawStore.set (keyOf metadataOnlySession.orgId)
        { plan := metadataOnlySession.plan, status := some "trialing" } :=
  (checkout_completed_field_confusion emptyRawStore metadataOnlySession (by decide)).1

/-- C1 counterexample: the request `plan = "enterprise", orgId = "org_1"`
does not fail — the checkout route has no InvalidPlan outcome at all — and
it does perform the vendor call, with the plan silently resolved to the pro
price by the ternary of lines 58-60. -/
theorem checkout_unknown_plan_counterexample :
    checkoutRoute "price_pro" "price_business" (some "enterprise") (some "org_1") =
      CheckoutResult.sessionCreated "price_pro" ∧
    performsVendorCall
        (checkoutRoute "price_pro" "price_business" (some "enterprise") (some "org_1")) =
      true := by
  decide

/-- C1 amended: every checkout request with truthy `plan` and `orgId`
proceeds to the vendor call, resolving `business` to the business price and
every other plan identifier — `enterprise` included — to the pro price; the
only request-determined failure is the missing-parameter rejection. -/
theorem checkout_no_invalid_plan (proPrice businessPrice : String)
    (plan orgId : Option String)
    (hp : truthy plan = true) (ho : truthy orgId = true) :
    checkoutRoute proPrice businessPrice plan orgId =
      CheckoutResult.sessionCreated
        (if plan = some "business" then businessPrice else proPrice) ∧
    performsVendorCall (checkoutRoute proPrice businessPrice plan orgId) = true ∧
    ∀ p q : Option String, checkoutRoute proPrice businessPrice p q =
        CheckoutResult.missingParams → truthy p = false ∨ truthy q = false := by
  refine ⟨?_, ?_, ?_⟩
  · simp [checkoutRoute, hp, ho]
  · have h1 : checkoutRoute proPrice businessPrice plan orgId =
        CheckoutResult.sessionCreated
          (if plan = some "business" then businessPrice else proPrice) := by
      simp [checkoutRoute, hp, ho]
    rw [h1]
    by_cases hb : plan = some "business" <;> simp [hb, performsVendorCall]
  · intro p q hpq
    by_cases h1 : truthy p = false
    · exact Or.inl h1
    · by_cases h2 : truthy q = false
      · exact Or.inr h2
      · simp only [Bool.not_eq_false] at h1 h2
        simp [checkoutRoute, h1, h2] at hpq

/-- Witness for the amended C1 at the concrete enterprise request. -/
theorem checkout_no_invalid_plan_witness :
    checkoutRoute "price_pro" "price_business" (some "enterprise") (some "org_2") =
      CheckoutResult.sessionCreated
        (if (some "enterprise" : Option String) = some "business"
         then "price_business" else "price_pro") ∧
    performsVendorCall
        (checkoutRoute "price_pro" "price_business" (some "enterprise") (some "org_2")) =
      true :=
  ⟨(checkout_no_invalid_plan "price_pro" "price_business"
      (some "enterprise") (some "org_2") (by decide) (by decide)).1,
   (checkout_no_invalid_plan "price_pro" "price_business"
      (some "enterprise") (some "org_2") (by decide) (by decide)).2.1⟩
